import Mathlib

/-!
Verification of the runner-utils library (src/lib.rs): a pure binary-path
classifier (`binary_kind`, `BinaryKind.is_test`) and a timeout-bounded
process runner (`run_with_timeout`) with a typed error taxonomy
(`RunError`, `IoErrorContext`).

The classifier is embedded over a model of Rust `Path` values as a root
flag plus a list of normal components, where each component is either a
valid UTF-8 string or a non-UTF-8 byte sequence (for which `to_str`
returns `None`).  The runner is embedded over an oracle environment
recording the outcome of each OS call (spawn, bounded wait, kill,
unbounded wait); the embedding returns both the Rust function's result
and the ordered trace of OS actions it performed, so that claims about
which calls happen on which paths can be stated.
-/

/-- A single path component, mirroring Rust `OsStr`: either valid UTF-8
(`to_str` succeeds) or an arbitrary non-UTF-8 byte sequence (`to_str`
returns `None`). -/
inductive OsStr where
  | valid (s : String)
  | invalid (bytes : List Nat)
  deriving DecidableEq, Repr

/-- Rust `OsStr::to_str`: `Some` exactly for valid UTF-8. -/
def OsStr.toStr : OsStr → Option String
  | .valid s => some s
  | .invalid _ => none

/-- A Rust `Path`, modelled as an optional root plus its list of normal
components. -/
structure RustPath where
  hasRoot : Bool
  components : List OsStr
  deriving DecidableEq, Repr

/-- Rust `Path::parent`: drop the final component; `None` when the path
has no components (empty path or bare root). -/
def RustPath.parent (p : RustPath) : Option RustPath :=
  match p.components with
  | [] => none
  | _ :: _ => some ⟨p.hasRoot, p.components.dropLast⟩

/-- Rust `Path::file_name`: the final normal component, if any. -/
def RustPath.fileName (p : RustPath) : Option OsStr :=
  p.components.getLast?

/-- The classification of a binary, from src/lib.rs lines 18-23. -/
inductive BinaryKind where
  | Test
  | DocTest
  | Other
  deriving DecidableEq, Repr

/-- `BinaryKind::is_test` from src/lib.rs lines 26-31. -/
def BinaryKind.is_test : BinaryKind → Bool
  | .Test => true
  | .DocTest => true
  | .Other => false

/-- The `parent_dir_name` computation inside `binary_kind`
(src/lib.rs lines 7-10): parent directory, then its final component,
then conversion to a UTF-8 string. -/
def parent_dir_name (p : RustPath) : Option String :=
  (p.parent.bind RustPath.fileName).bind OsStr.toStr

/-- Rust `str::starts_with(pat)`: the pattern's characters are a prefix
of the string's characters. -/
def str_starts_with (s pat : String) : Bool :=
  pat.data.isPrefixOf s.data

/-- `binary_kind` from src/lib.rs lines 6-16: `"deps"` parents classify
as `Test`, parents starting with `"rustdoctest"` as `DocTest`,
everything else (including no parent / non-UTF-8 parent name) as
`Other`. -/
def binary_kind (p : RustPath) : BinaryKind :=
  match parent_dir_name p with
  | some name =>
    if name = "deps" then BinaryKind.Test
    else if str_starts_with name "rustdoctest" then BinaryKind.DocTest
    else BinaryKind.Other
  | none => BinaryKind.Other

/-- An OS-level I/O error (Rust `io::Error`), abstracted to its raw
error code. -/
structure OsError where
  code : Nat
  deriving DecidableEq, Repr

/-- The termination status of a finished process (Rust `ExitStatus`),
abstracted to its raw platform status value. -/
structure ExitStatus where
  raw : Int
  deriving DecidableEq, Repr

/-- `IoErrorContext` from src/lib.rs lines 76-95. -/
inductive IoErrorContext where
  | Command (command : String)
  | WaitWithTimeout
  | KillProcess
  | WaitForProcess
  deriving DecidableEq, Repr

/-- `RunError` from src/lib.rs lines 58-72. -/
inductive RunError where
  | TimedOut
  | Io (context : IoErrorContext) (error : OsError)
  deriving DecidableEq, Repr

/-- The OS calls `run_with_timeout` can issue, in source order:
`command.spawn()`, `child.wait_timeout(timeout)`, `child.kill()`,
`child.wait()`. -/
inductive RunAction where
  | spawn
  | waitTimeout
  | kill
  | waitUnbounded
  deriving DecidableEq, Repr

/-- Oracle environment for one invocation of `run_with_timeout`: the
outcome each OS call would have if issued.  `waitTimeoutResult`'s
`ok none` means the deadline elapsed with no termination; `ok (some s)`
means the child terminated within the deadline with status `s`.
`commandRendered` is the Rust debug rendering of the command used for
the `Command` error context. -/
structure RunEnv where
  spawnResult : Except OsError Unit
  waitTimeoutResult : Except OsError (Option ExitStatus)
  killResult : Except OsError Unit
  waitResult : Except OsError ExitStatus
  commandRendered : String
  deriving Repr

/-- `run_with_timeout` from src/lib.rs lines 34-54, embedded over the
oracle environment.  Returns the Rust function's result paired with the
ordered trace of OS calls actually issued.  Each `?` early return in the
source corresponds to an `error` branch here. -/
def run_with_timeout (env : RunEnv) : Except RunError ExitStatus × List RunAction :=
  match env.spawnResult with
  | .error e => (.error (.Io (.Command env.commandRendered) e), [.spawn])
  | .ok _ =>
    match env.waitTimeoutResult with
    | .error e => (.error (.Io .WaitWithTimeout e), [.spawn, .waitTimeout])
    | .ok (some exit_status) => (.ok exit_status, [.spawn, .waitTimeout])
    | .ok none =>
      match env.killResult with
      | .error e => (.error (.Io .KillProcess e), [.spawn, .waitTimeout, .kill])
      | .ok _ =>
        match env.waitResult with
        | .error e =>
          (.error (.Io .WaitForProcess e), [.spawn, .waitTimeout, .kill, .waitUnbounded])
        | .ok _ =>
          (.error .TimedOut, [.spawn, .waitTimeout, .kill, .waitUnbounded])

/-- Claim C5: every path whose parent directory's final component is
exactly the string "deps" classifies as `Test`, and `is_test` on that
result is `true`. -/
theorem binary_kind_deps_is_Test (p : RustPath)
    (h : parent_dir_name p = some "deps") :
    binary_kind p = BinaryKind.Test ∧ (binary_kind p).is_test = true := by
  simp [binary_kind, h, BinaryKind.is_test]

/-- Witness for C5: a concrete path under a `deps` directory. -/
theorem binary_kind_deps_is_Test_witness :
    binary_kind ⟨false, [.valid "target", .valid "deps", .valid "foo-abc"]⟩ = BinaryKind.Test ∧
      (binary_kind ⟨false, [.valid "target", .valid "deps", .valid "foo-abc"]⟩).is_test = true :=
  binary_kind_deps_is_Test _ (by decide)

/-- Claim C6: every path whose parent directory's final component starts
with "rustdoctest" classifies as `DocTest`, and `is_test` on that result
is `true`.  (Such a name can never equal "deps", so the claim's
parenthetical exclusion is implied.) -/
theorem binary_kind_rustdoctest_is_DocTest (p : RustPath) (name : String)
    (h : parent_dir_name p = some name)
    (hpre : str_starts_with name "rustdoctest" = true) :
    binary_kind p = BinaryKind.DocTest ∧ (binary_kind p).is_test = true := by
  have hne : name ≠ "deps" := by
    intro he
    rw [he] at hpre
    exact absurd hpre (by decide)
  simp [binary_kind, h, hne, hpre, BinaryKind.is_test]

/-- Witness for C6: a concrete path under a `rustdoctest1` directory. -/
theorem binary_kind_rustdoctest_is_DocTest_witness :
    binary_kind ⟨false, [.valid "rustdoctest1", .valid "foo"]⟩ = BinaryKind.DocTest ∧
      (binary_kind ⟨false, [.valid "rustdoctest1", .valid "foo"]⟩).is_test = true :=
  binary_kind_rustdoctest_is_DocTest _ "rustdoctest1" (by decide) (by decide)

/-- Claim C7: every path whose parent directory's final component is
neither "deps" nor prefixed by "rustdoctest" — including paths with no
parent directory and paths whose parent component is not valid UTF-8 —
classifies as `Other` (the function is total, so it cannot panic), and
`is_test` on that result is `false`. -/
theorem binary_kind_otherwise_is_Other (p : RustPath)
    (h : ∀ name, parent_dir_name p = some name →
      name ≠ "deps" ∧ str_starts_with name "rustdoctest" = false) :
    binary_kind p = BinaryKind.Other ∧ (binary_kind p).is_test = false := by
  cases hp : parent_dir_name p with
  | none => simp [binary_kind, hp, BinaryKind.is_test]
  | some name =>
    obtain ⟨h1, h2⟩ := h name hp
    simp [binary_kind, hp, h1, h2, BinaryKind.is_test]

/-- Witness for C7: a concrete path whose parent's final component is
not valid UTF-8. -/
theorem binary_kind_otherwise_is_Other_witness :
    binary_kind ⟨false, [.invalid [255], .valid "foo"]⟩ = BinaryKind.Other ∧
      (binary_kind ⟨false, [.invalid [255], .valid "foo"]⟩).is_test = false :=
  binary_kind_otherwise_is_Other _ (by
    intro name hn
    rw [show parent_dir_name ⟨false, [.invalid [255], .valid "foo"]⟩ = none from by decide] at hn
    exact Option.noConfusion hn)

/-- Claim C8: `binary_kind` is a pure, deterministic function of the
path: it is embedded as a total function with no effects, so any two
evaluations on equal path values return equal results. -/
theorem binary_kind_deterministic (p q : RustPath) (h : p = q) :
    binary_kind p = binary_kind q :=
  congrArg binary_kind h

/-- Witness for C8: determinism at a concrete path value. -/
theorem binary_kind_deterministic_witness :
    binary_kind ⟨false, [.valid "deps", .valid "x"]⟩ =
      binary_kind ⟨false, [.valid "deps", .valid "x"]⟩ :=
  binary_kind_deterministic _ _ rfl

/-- Claim C9: a parent directory whose final component is exactly
"rustdoctest" (the bare prefix, no suffix) classifies as `DocTest`. -/
theorem binary_kind_bare_rustdoctest_is_DocTest (p : RustPath)
    (h : parent_dir_name p = some "rustdoctest") :
    binary_kind p = BinaryKind.DocTest := by
  simp [binary_kind, h]
  decide

/-- Witness for C9: a concrete path under a directory named exactly
`rustdoctest`. -/
theorem binary_kind_bare_rustdoctest_is_DocTest_witness :
    binary_kind ⟨false, [.valid "rustdoctest", .valid "foo"]⟩ = BinaryKind.DocTest :=
  binary_kind_bare_rustdoctest_is_DocTest _ (by decide)

/-- Claim C10: `binary_kind` depends only on the final component of the
path's parent directory: two paths whose parents have equal final
components (or both none) classify identically, regardless of file name
or earlier components. -/
theorem binary_kind_depends_only_on_parent_component (p q : RustPath)
    (h : p.parent.bind RustPath.fileName = q.parent.bind RustPath.fileName) :
    binary_kind p = binary_kind q := by
  unfold binary_kind parent_dir_name
  rw [h]

/-- Witness for C10: two paths with different roots, file names and
ancestor components but the same `deps` parent component. -/
theorem binary_kind_depends_only_on_parent_component_witness :
    binary_kind ⟨false, [.valid "a", .valid "deps", .valid "x"]⟩ =
      binary_kind ⟨true, [.valid "b", .valid "c", .valid "deps", .valid "y"]⟩ :=
  binary_kind_depends_only_on_parent_component _ _ (by decide)

/-- Claim C1: on the timeout path (bounded wait reports the deadline
elapsed with no termination) the runner issues a kill; a failed kill
yields an `Io` error with `KillProcess` context and no further wait; a
successful kill is followed by the unbounded reaping wait, whose failure
yields an `Io` error with `WaitForProcess` context; and `TimedOut` is
returned exactly when both the kill and the reaping wait succeeded. -/
theorem run_with_timeout_timeout_path (env : RunEnv)
    (hs : env.spawnResult = .ok ())
    (hw : env.waitTimeoutResult = .ok none) :
    RunAction.kill ∈ (run_with_timeout env).2 ∧
    (∀ e, env.killResult = .error e →
      (run_with_timeout env).1 = .error (.Io .KillProcess e) ∧
      RunAction.waitUnbounded ∉ (run_with_timeout env).2) ∧
    (env.killResult = .ok () →
      RunAction.waitUnbounded ∈ (run_with_timeout env).2 ∧
      (∀ e, env.waitResult = .error e →
        (run_with_timeout env).1 = .error (.Io .WaitForProcess e)) ∧
      (∀ s, env.waitResult = .ok s →
        (run_with_timeout env).1 = .error .TimedOut)) ∧
    ((run_with_timeout env).1 = .error .TimedOut ↔
      env.killResult = .ok () ∧ ∃ s, env.waitResult = .ok s) := by
  obtain ⟨sp, wt, kl, wr, cmd⟩ := env
  simp only at hs hw
  subst hs hw
  rcases kl with e | ⟨⟩ <;> rcases wr with e' | s' <;>
    simp [run_with_timeout]

/-- Witness for C1: the timeout path with kill and reap both
succeeding. -/
theorem run_with_timeout_timeout_path_witness :
    RunAction.kill ∈ (run_with_timeout ⟨.ok (), .ok none, .ok (), .ok ⟨0⟩, "cmd"⟩).2 ∧
    (∀ e, (RunEnv.mk (.ok ()) (.ok none) (.ok ()) (.ok ⟨0⟩) "cmd").killResult = .error e →
      (run_with_timeout ⟨.ok (), .ok none, .ok (), .ok ⟨0⟩, "cmd"⟩).1 = .error (.Io .KillProcess e) ∧
      RunAction.waitUnbounded ∉ (run_with_timeout ⟨.ok (), .ok none, .ok (), .ok ⟨0⟩, "cmd"⟩).2) ∧
    ((RunEnv.mk (.ok ()) (.ok none) (.ok ()) (.ok ⟨0⟩) "cmd").killResult = .ok () →
      RunAction.waitUnbounded ∈ (run_with_timeout ⟨.ok (), .ok none, .ok (), .ok ⟨0⟩, "cmd"⟩).2 ∧
      (∀ e, (RunEnv.mk (.ok ()) (.ok none) (.ok ()) (.ok ⟨0⟩) "cmd").waitResult = .error e →
        (run_with_timeout ⟨.ok (), .ok none, .ok (), .ok ⟨0⟩, "cmd"⟩).1 = .error (.Io .WaitForProcess e)) ∧
      (∀ s, (RunEnv.mk (.ok ()) (.ok none) (.ok ()) (.ok ⟨0⟩) "cmd").waitResult = .ok s →
        (run_with_timeout ⟨.ok (), .ok none, .ok (), .ok ⟨0⟩, "cmd"⟩).1 = .error .TimedOut)) ∧
    ((run_with_timeout ⟨.ok (), .ok none, .ok (), .ok ⟨0⟩, "cmd"⟩).1 = .error .TimedOut ↔
      (RunEnv.mk (.ok ()) (.ok none) (.ok ()) (.ok ⟨0⟩) "cmd").killResult = .ok () ∧
      ∃ s, (RunEnv.mk (.ok ()) (.ok none) (.ok ()) (.ok ⟨0⟩) "cmd").waitResult = .ok s) :=
  run_with_timeout_timeout_path ⟨.ok (), .ok none, .ok (), .ok ⟨0⟩, "cmd"⟩ rfl rfl

/-- Claim C2: `run_with_timeout` succeeds exactly when the spawn
succeeded and the child terminated within the timeout, and then the
returned value is the child's termination status unmodified; every other
outcome is an error. -/
theorem run_with_timeout_success_iff (env : RunEnv) (s : ExitStatus) :
    (run_with_timeout env).1 = .ok s ↔
      env.spawnResult = .ok () ∧ env.waitTimeoutResult = .ok (some s) := by
  obtain ⟨sp, wt, kl, wr, cmd⟩ := env
  rcases sp with e | ⟨⟩ <;> rcases wt with e' | (_ | s') <;>
    rcases kl with e2 | ⟨⟩ <;> rcases wr with e3 | s3 <;>
    simp [run_with_timeout]

/-- Claim C3: a spawn failure makes `run_with_timeout` fail immediately
(no kill, no waits, hence no timeout; the embedding is total, so no
panic) with an `Io` error whose `Command` context carries the rendered
command string and which wraps the underlying OS error. -/
theorem run_with_timeout_spawn_failure (env : RunEnv) (e : OsError)
    (h : env.spawnResult = .error e) :
    (run_with_timeout env).1 = .error (.Io (.Command env.commandRendered) e) ∧
    (run_with_timeout env).1 ≠ .error .TimedOut ∧
    (run_with_timeout env).2 = [.spawn] := by
  obtain ⟨sp, wt, kl, wr, cmd⟩ := env
  simp only at h
  subst h
  simp [run_with_timeout]

/-- Witness for C3: a concrete environment whose spawn fails. -/
theorem run_with_timeout_spawn_failure_witness :
    (run_with_timeout ⟨.error ⟨2⟩, .ok none, .ok (), .ok ⟨0⟩, "mycmd"⟩).1 =
      .error (.Io (.Command (RunEnv.mk (.error ⟨2⟩) (.ok none) (.ok ()) (.ok ⟨0⟩) "mycmd").commandRendered) ⟨2⟩) ∧
    (run_with_timeout ⟨.error ⟨2⟩, .ok none, .ok (), .ok ⟨0⟩, "mycmd"⟩).1 ≠ .error .TimedOut ∧
    (run_with_timeout ⟨.error ⟨2⟩, .ok none, .ok (), .ok ⟨0⟩, "mycmd"⟩).2 = [.spawn] :=
  run_with_timeout_spawn_failure ⟨.error ⟨2⟩, .ok none, .ok (), .ok ⟨0⟩, "mycmd"⟩ ⟨2⟩ rfl

/-- Claim C4: if the bounded wait mechanism itself fails (after a
successful spawn), `run_with_timeout` returns an `Io` error with
`WaitWithTimeout` context wrapping the underlying error, and issues no
kill and no further wait on the child. -/
theorem run_with_timeout_wait_mechanism_failure (env : RunEnv) (e : OsError)
    (hs : env.spawnResult = .ok ())
    (h : env.waitTimeoutResult = .error e) :
    (run_with_timeout env).1 = .error (.Io .WaitWithTimeout e) ∧
    RunAction.kill ∉ (run_with_timeout env).2 ∧
    RunAction.waitUnbounded ∉ (run_with_timeout env).2 := by
  obtain ⟨sp, wt, kl, wr, cmd⟩ := env
  simp only at hs h
  subst hs h
  simp [run_with_timeout]

/-- Witness for C4: a concrete environment whose bounded wait errors. -/
theorem run_with_timeout_wait_mechanism_failure_witness :
    (run_with_timeout ⟨.ok (), .error ⟨5⟩, .ok (), .ok ⟨0⟩, "cmd"⟩).1 =
      .error (.Io .WaitWithTimeout ⟨5⟩) ∧
    RunAction.kill ∉ (run_with_timeout ⟨.ok (), .error ⟨5⟩, .ok (), .ok ⟨0⟩, "cmd"⟩).2 ∧
    RunAction.waitUnbounded ∉ (run_with_timeout ⟨.ok (), .error ⟨5⟩, .ok (), .ok ⟨0⟩, "cmd"⟩).2 :=
  run_with_timeout_wait_mechanism_failure ⟨.ok (), .error ⟨5⟩, .ok (), .ok ⟨0⟩, "cmd"⟩ ⟨5⟩ rfl rfl
